import Mathlib

/-!
Verification of the conversation-summary chain module
(`mkt_conversation_summary.py`): the history validator/reshaper, the
prompt builder, the streaming and non-streaming pipelines, and the
hosted-family (Claude) variant declarations.

Python `assert` failures in the validator are modelled as
`ChainError.validationError`; the out-of-range access `questions[0]` on an
empty questions list is modelled as `ChainError.indexError`.  The base-class
helpers that are outside this repository slice (`build_prompt`, the
`CHIT_CHAT_SYSTEM_TEMPLATE` constant, and the inner model-invoking chain)
are taken as parameters, so every theorem below holds for any choice of
them.  The `prefix` key of the source's prompt dict is named `pfx` here.
-/

/-- Message roles, mirroring `HUMAN_MESSAGE_TYPE`, `AI_MESSAGE_TYPE`,
`SYSTEM_MESSAGE_TYPE` from the constants module. -/
inductive MessageType where
  | human
  | ai
  | system
deriving DecidableEq, Repr

/-- A conversation message: a role tag plus text content. -/
structure Message where
  type : MessageType
  content : String
deriving DecidableEq, Repr

/-- Errors raised during prompt construction: `validationError` models the
Python `assert` failures (odd length, role-order violation) and
`indexError` models the `questions[0]` access on an empty list. -/
inductive ChainError where
  | validationError
  | indexError
deriving DecidableEq, Repr

/-- The `{"prompt": ..., "prefix": ...}` dict returned by `_create_prompt`
(the `prefix` key is named `pfx`). -/
structure PromptDict where
  prompt : String
  pfx : String
deriving DecidableEq, Repr

/-- The pairing loop of `_create_prompt`
(`for i in range(0, len(chat_history), 2): ...`): checks that the message
at each even index is human and the one after it is assistant, and collects
`history` (question, answer pairs) and `questions`.  The singleton case
models the `chat_history[i+1]` access pattern; it is unreachable after the
even-length assert. -/
def pairLoop : List Message → Except ChainError (List (String × String) × List String)
  | [] => Except.ok ([], [])
  | h :: a :: rest =>
      if h.type = MessageType.human then
        if a.type = MessageType.ai then
          match pairLoop rest with
          | Except.ok (hist, qs) =>
              Except.ok ((h.content, a.content) :: hist, h.content :: qs)
          | Except.error e => Except.error e
        else Except.error ChainError.validationError
      else Except.error ChainError.validationError
  | _ :: [] => Except.error ChainError.validationError

/-- The `questions_str` accumulation loop:
`for i, question in enumerate(questions): questions_str += f"问题{i+1}: {question}\n"`,
with `i` the running index. -/
def questionsStrAux (i : Nat) : List String → String
  | [] => ""
  | q :: rest => "问题" ++ toString (i + 1) ++ ": " ++ q ++ "\n" ++ questionsStrAux (i + 1) rest

/-- The fixed query instruction of the instruction-tuned family
(`query_input` in `_create_prompt`). -/
def mkt_query_input : String := "请总结上述对话中的内容,每一轮对话单独一个总结。\n"

/-- The synthetic assistant-voice preamble `prompt_assist`. -/
def prompt_assist_str (n : Nat) (questions_str : String) : String :=
  "好的，根据提供历史对话信息，共有" ++ toString n ++ "段对话:\n" ++ questions_str
    ++ "\n对它们的总结如下(每一个总结要先复述一下问题):\n"

/-- `Iternlm2Chat7BMKTConversationSummaryChain._create_prompt`.
`bp` stands for the inherited `build_prompt` class method and `tmpl` for the
`CHIT_CHAT_SYSTEM_TEMPLATE` constant, both defined outside this module; the
theorems hold for every choice of them. -/
def mkt_create_prompt (bp : String → List (String × String) → String → String)
    (tmpl : String) (chat_history : List Message) : Except ChainError PromptDict :=
  if chat_history.length % 2 = 0 then
    match pairLoop chat_history with
    | Except.error e => Except.error e
    | Except.ok (history, questions) =>
        let questions_str := questionsStrAux 0 questions
        let prompt := bp tmpl history mkt_query_input
        let prompt_assist := prompt_assist_str history.length questions_str
        match questions with
        | [] => Except.error ChainError.indexError
        | q0 :: _ =>
            let pfx := "问题1: " ++ q0 ++ "\n总结:"
            Except.ok { prompt := prompt ++ prompt_assist ++ pfx, pfx := pfx }
  else Except.error ChainError.validationError

/-- `stream_postprocess_fn`: yields the stored prefix first, then every
chunk of `llm_output` in arrival order. -/
def stream_postprocess_fn (pfx : String) (llm_output : List String) : List String :=
  pfx :: llm_output

/-- The non-streaming pipeline built by `create_chain` (with
`stream=False`): build the prompt dict, invoke the model on the rendered
prompt, and return `x['prefix'] + x['llm_output']`.  The second component
records the prompts sent to the model-invocation collaborator, so its
length counts model calls. -/
def run_nonstream (bp : String → List (String × String) → String → String)
    (tmpl : String) (llm : String → String) (chat_history : List Message) :
    Except ChainError String × List String :=
  match mkt_create_prompt bp tmpl chat_history with
  | Except.error e => (Except.error e, [])
  | Except.ok pd => (Except.ok (pd.pfx ++ llm pd.prompt), [pd.prompt])

/-- The streaming pipeline built by `create_chain` (with `stream=True`):
build the prompt dict, invoke the model, and post-process with
`stream_postprocess_fn`.  The second component again records the prompts
sent to the model. -/
def run_stream (bp : String → List (String × String) → String → String)
    (tmpl : String) (llmStream : String → List String) (chat_history : List Message) :
    Except ChainError (List String) × List String :=
  match mkt_create_prompt bp tmpl chat_history with
  | Except.error e => (Except.error e, [])
  | Except.ok pd => (Except.ok (stream_postprocess_fn pd.pfx (llmStream pd.prompt)), [pd.prompt])

/-- The request context threaded through the `RunnablePassthrough.assign`
steps of `create_chain`: the incoming `chat_history` plus the keys the
chain assigns (`prompt`, `prefix` as `pfx`, `llm_output`). -/
structure MKTCtx where
  chat_history : List Message
  prompt : String
  pfx : String
  llm_output : String
deriving DecidableEq, Repr

/-- The chain of `create_chain` viewed as a transformation of the request
context: each `RunnablePassthrough.assign` step carries the incoming keys
through unchanged and adds the new ones. -/
def run_pipeline_ctx (bp : String → List (String × String) → String → String)
    (tmpl : String) (llm : String → String) (chat_history : List Message) :
    Except ChainError MKTCtx :=
  match mkt_create_prompt bp tmpl chat_history with
  | Except.error e => Except.error e
  | Except.ok pd =>
      Except.ok { chat_history := chat_history, prompt := pd.prompt, pfx := pd.pfx,
                  llm_output := llm pd.prompt }

/-! Spec-side descriptions of the reshaper output, following the claim's
words ("i-th pair is (content of message 2i, content of message 2i+1)",
"questions list equal to the contents of the even-indexed messages"), to be
compared with `pairLoop`. -/

/-- Spec-side description: consecutive (question, answer) content pairs. -/
def specPairedHistory : List Message → List (String × String)
  | a :: b :: rest => (a.content, b.content) :: specPairedHistory rest
  | _ => []

/-- Spec-side description: contents of the even-indexed messages in order. -/
def specQuestions : List Message → List String
  | a :: _ :: rest => a.content :: specQuestions rest
  | [a] => [a.content]
  | [] => []

/-! The hosted conversational (Claude) family of variants. -/

/-- Generation parameters: `default_model_kwargs` of
`Claude2MKTConversationSummaryChain` carries exactly these three keys.
Temperature and top-p are modelled as exact rationals. -/
structure ModelKwargs where
  max_tokens_to_sample : Nat
  temperature : ℚ
  top_p : ℚ
deriving DecidableEq, Repr

/-- One hosted-family variant class: its `model_id`, the
`default_model_kwargs` it (inherits or) declares, and the `query_input`
instruction its inherited `create_chain` assigns. -/
structure MKTSummaryVariant where
  model_id : String
  default_model_kwargs : ModelKwargs
  query_input : String
deriving DecidableEq, Repr

/-- The fixed query instruction assigned by
`Claude2MKTConversationSummaryChain.create_chain` (inherited unchanged by
the other two variants). -/
def claude_query_input : String :=
  "请简要总结上述对话中的内容,每一个对话单独一个总结，并用 \x27- \x27开头。 每一个总结要先说明问题。\n"

/-- `Claude2MKTConversationSummaryChain`: model id `anthropic.claude-v2`,
`default_model_kwargs = {"max_tokens_to_sample": 2000, "temperature": 0.1, "top_p": 0.9}`. -/
def Claude2MKTConversationSummaryChain : MKTSummaryVariant :=
  { model_id := "anthropic.claude-v2",
    default_model_kwargs := { max_tokens_to_sample := 2000, temperature := 0.1, top_p := 0.9 },
    query_input := claude_query_input }

/-- `Claude21MKTConversationSummaryChain`: subclasses the variant above and
overrides only `model_id`. -/
def Claude21MKTConversationSummaryChain : MKTSummaryVariant :=
  { Claude2MKTConversationSummaryChain with model_id := "anthropic.claude-v2:1" }

/-- `ClaudeInstanceMKTConversationSummaryChain`: subclasses
`Claude2MKTConversationSummaryChain` and overrides only `model_id`. -/
def ClaudeInstanceMKTConversationSummaryChain : MKTSummaryVariant :=
  { Claude2MKTConversationSummaryChain with model_id := "anthropic.claude-instant-v1" }

/-- Caller overrides for generation parameters (`model_kwargs` argument of
`create_chain`): any subset of the keys may be supplied. -/
structure ModelKwargsOverride where
  max_tokens_to_sample : Option Nat
  temperature : Option ℚ
  top_p : Option ℚ
deriving DecidableEq, Repr

/-- The empty override (`model_kwargs=None`). -/
def noOverride : ModelKwargsOverride :=
  { max_tokens_to_sample := none, temperature := none, top_p := none }

/-- Modelled from the spec: the shared hosted-family base chain
(`Claude2ChatChain.create_chain`, not under src/) passes the variant's
`default_model_kwargs` to the model invocation, with each explicitly
overridden key replaced by the caller's value ("reuse all default
parameters and the instruction text unless explicitly overridden"). -/
def effective_model_kwargs (v : MKTSummaryVariant) (ov : ModelKwargsOverride) : ModelKwargs :=
  { max_tokens_to_sample := ov.max_tokens_to_sample.getD v.default_model_kwargs.max_tokens_to_sample,
    temperature := ov.temperature.getD v.default_model_kwargs.temperature,
    top_p := ov.top_p.getD v.default_model_kwargs.top_p }

/-- The request context seen by the hosted-family chain: the incoming
`chat_history` and `query` keys. -/
structure ClaudeCtx where
  chat_history : List Message
  query : String
deriving DecidableEq, Repr

/-- The `RunnablePassthrough.assign(query=lambda x: query_input)` step of
`Claude2MKTConversationSummaryChain.create_chain`: replaces the `query` key
with the fixed instruction, carrying `chat_history` through. -/
def claude_assign_query (x : ClaudeCtx) : ClaudeCtx :=
  { x with query := claude_query_input }

/-- `Claude2MKTConversationSummaryChain.create_chain`: the query-assign step
composed (via `|`) in front of the inherited chain, here an arbitrary
function `inner`. -/
def claude_create_chain {α : Type} (inner : ClaudeCtx → α) (x : ClaudeCtx) : α :=
  inner (claude_assign_query x)

/-! Helper lemmas about the pairing loop. -/

/-- On an even-length, strictly alternating history the pairing loop
succeeds and returns exactly the spec-side pairing and question list. -/
theorem pairLoop_ok_of_valid : ∀ (h : List Message), h.length % 2 = 0 →
    (∀ j (hj : j < h.length), j % 2 = 0 → h[j].type = MessageType.human) →
    (∀ j (hj : j < h.length), j % 2 = 1 → h[j].type = MessageType.ai) →
    pairLoop h = Except.ok (specPairedHistory h, specQuestions h)
  | [], _, _, _ => rfl
  | [_], heven, _, _ => by simp at heven
  | a :: b :: rest, heven, hhum, hai => by
      have ha : a.type = MessageType.human := hhum 0 (by simp) rfl
      have hb : b.type = MessageType.ai := hai 1 (by simp) rfl
      have heven' : rest.length % 2 = 0 := by simp at heven; omega
      have hhum' : ∀ j (hj : j < rest.length), j % 2 = 0 →
          rest[j].type = MessageType.human := by
        intro j hj hje
        have := hhum (j + 2) (by simp; omega) (by omega)
        simpa using this
      have hai' : ∀ j (hj : j < rest.length), j % 2 = 1 →
          rest[j].type = MessageType.ai := by
        intro j hj hjo
        have := hai (j + 2) (by simp; omega) (by omega)
        simpa using this
      have ih := pairLoop_ok_of_valid rest heven' hhum' hai'
      simp [pairLoop, ha, hb, ih, specPairedHistory, specQuestions]

/-- Inversion: on any cons history a successful pairing consumes the first
two messages. -/
theorem pairLoop_ok_cons (a : Message) (l : List Message)
    (hist : List (String × String)) (qs : List String)
    (hok : pairLoop (a :: l) = Except.ok (hist, qs)) :
    ∃ b l' hist' qs', l = b :: l' ∧ hist = (a.content, b.content) :: hist' ∧
      qs = a.content :: qs' ∧ pairLoop l' = Except.ok (hist', qs') := by
  cases l with
  | nil => simp [pairLoop] at hok
  | cons b l' =>
      by_cases ha : a.type = MessageType.human
      · by_cases hb : b.type = MessageType.ai
        · simp only [pairLoop, if_pos ha, if_pos hb] at hok
          cases hpl : pairLoop l' with
          | error e => rw [hpl] at hok; simp at hok
          | ok p =>
              obtain ⟨hist', qs'⟩ := p
              rw [hpl] at hok
              simp at hok
              exact ⟨b, l', hist', qs', rfl, hok.1.symm, hok.2.symm, hpl⟩
        · simp [pairLoop, ha, hb] at hok
      · simp [pairLoop, ha] at hok

/-- A successful pairing halves the length, for both outputs. -/
theorem pairLoop_ok_lengths : ∀ (h : List Message) hist qs,
    pairLoop h = Except.ok (hist, qs) →
    hist.length * 2 = h.length ∧ qs.length * 2 = h.length
  | [], hist, qs, hok => by
      simp [pairLoop] at hok
      simp [← hok.1, ← hok.2]
  | [_], hist, qs, hok => by simp [pairLoop] at hok
  | a :: b :: rest, hist, qs, hok => by
      obtain ⟨b', l', hist', qs', hl, hhist, hqs, hpl⟩ :=
        pairLoop_ok_cons a (b :: rest) hist qs hok
      rw [List.cons.injEq] at hl
      obtain ⟨hb', hl'⟩ := hl
      subst hb' hl'
      have ih := pairLoop_ok_lengths rest hist' qs' hpl
      subst hhist hqs
      simp
      omega

/-- Any violation of the human/assistant alternation makes the pairing
loop fail with the validation error. -/
theorem pairLoop_error_of_violation : ∀ (h : List Message),
    ((∃ j, ∃ hj : j < h.length, j % 2 = 0 ∧ h[j].type ≠ MessageType.human) ∨
     (∃ j, ∃ hj : j < h.length, j % 2 = 1 ∧ h[j].type ≠ MessageType.ai)) →
    pairLoop h = Except.error ChainError.validationError
  | [], hviol => by
      rcases hviol with ⟨j, hj, _⟩ | ⟨j, hj, _⟩ <;> simp at hj
  | [_], _ => rfl
  | a :: b :: rest, hviol => by
      by_cases ha : a.type = MessageType.human
      · by_cases hb : b.type = MessageType.ai
        · have hviol' :
              (∃ j, ∃ hj : j < rest.length, j % 2 = 0 ∧
                rest[j].type ≠ MessageType.human) ∨
              (∃ j, ∃ hj : j < rest.length, j % 2 = 1 ∧
                rest[j].type ≠ MessageType.ai) := by
            rcases hviol with ⟨j, hj, hje, hjt⟩ | ⟨j, hj, hjo, hjt⟩
            · left
              have hj0 : j ≠ 0 := by
                rintro rfl
                exact hjt (by simpa using ha)
              obtain ⟨k, rfl⟩ : ∃ k, j = k + 2 := ⟨j - 2, by omega⟩
              refine ⟨k, by simp at hj; omega, by omega, ?_⟩
              simpa using hjt
            · right
              have hj1 : j ≠ 1 := by
                rintro rfl
                exact hjt (by simpa using hb)
              obtain ⟨k, rfl⟩ : ∃ k, j = k + 2 := ⟨j - 2, by omega⟩
              refine ⟨k, by simp at hj; omega, by omega, ?_⟩
              simpa using hjt
          have ih := pairLoop_error_of_violation rest hviol'
          simp [pairLoop, ha, hb, ih]
        · simp [pairLoop, ha, hb]
      · simp [pairLoop, ha]

/-- The i-th spec-side pair is the contents of messages 2i and 2i+1. -/
theorem specPairedHistory_getElem : ∀ (h : List Message) (i : Nat)
    (h1 : 2 * i < h.length) (h2 : 2 * i + 1 < h.length),
    (specPairedHistory h)[i]? = some (h[2 * i].content, h[2 * i + 1].content)
  | [], _, h1, _ => by simp at h1
  | [_], _, _, h2 => by simp at h2
  | a :: b :: rest, 0, _, _ => by simp [specPairedHistory]
  | a :: b :: rest, i + 1, h1, h2 => by
      have h1' : 2 * i < rest.length := by simp at h1; omega
      have h2' : 2 * i + 1 < rest.length := by simp at h2; omega
      have ih := specPairedHistory_getElem rest i h1' h2'
      have e1 : 2 * (i + 1) = 2 * i + 1 + 1 := by omega
      have e2 : 2 * (i + 1) + 1 = 2 * i + 1 + 1 + 1 := by omega
      simp only [specPairedHistory, List.getElem?_cons_succ, e1, e2,
        List.getElem_cons_succ]
      exact ih

/-- The i-th spec-side question is the content of message 2i. -/
theorem specQuestions_getElem : ∀ (h : List Message) (i : Nat)
    (h1 : 2 * i < h.length),
    (specQuestions h)[i]? = some h[2 * i].content
  | [], _, h1 => by simp at h1
  | [_], 0, _ => by simp [specQuestions]
  | [_], i + 1, h1 => by simp at h1
  | a :: b :: rest, 0, _ => by simp [specQuestions]
  | a :: b :: rest, i + 1, h1 => by
      have h1' : 2 * i < rest.length := by simp at h1; omega
      have ih := specQuestions_getElem rest i h1'
      have e1 : 2 * (i + 1) = 2 * i + 1 + 1 := by omega
      simp only [specQuestions, List.getElem?_cons_succ, e1, List.getElem_cons_succ]
      exact ih

/-- Inversion of a successful `mkt_create_prompt`: the history passed the
even-length check, the pairing succeeded with a nonempty question list,
and the dict's fields are the source's concatenations. -/
theorem mkt_create_prompt_ok (bp : String → List (String × String) → String → String)
    (tmpl : String) (h : List Message) (pd : PromptDict)
    (hok : mkt_create_prompt bp tmpl h = Except.ok pd) :
    ∃ hist q0 qs,
      h.length % 2 = 0 ∧
      pairLoop h = Except.ok (hist, q0 :: qs) ∧
      pd.pfx = "问题1: " ++ q0 ++ "\n总结:" ∧
      pd.prompt = bp tmpl hist mkt_query_input
        ++ prompt_assist_str hist.length (questionsStrAux 0 (q0 :: qs))
        ++ pd.pfx := by
  by_cases heven : h.length % 2 = 0
  · simp only [mkt_create_prompt, if_pos heven] at hok
    cases hpl : pairLoop h with
    | error e => rw [hpl] at hok; simp at hok
    | ok p =>
        obtain ⟨hist, qs⟩ := p
        rw [hpl] at hok
        cases qs with
        | nil => simp at hok
        | cons q0 qs' =>
            simp only [] at hok
            injection hok with hok'
            subst hok'
            exact ⟨hist, q0, qs', heven, rfl, rfl, rfl⟩
  · simp only [mkt_create_prompt, if_neg heven] at hok
    simp at hok

/-! Concrete inputs used by the witnesses. -/

/-- First human message of the spec's scenario. -/
def msgA : Message := { type := MessageType.human, content := "A?" }

/-- First assistant message of the spec's scenario. -/
def msgB : Message := { type := MessageType.ai, content := "B." }

/-- Second human message of the spec's scenario. -/
def msgC : Message := { type := MessageType.human, content := "C?" }

/-- Second assistant message of the spec's scenario. -/
def msgD : Message := { type := MessageType.ai, content := "D." }

/-- The scenario history of length 4. -/
def hist4 : List Message := [msgA, msgB, msgC, msgD]

/-- The prompt dict produced for `hist4` when the inherited template
renderer returns the empty string. -/
def pd4 : PromptDict :=
  { prompt := "好的，根据提供历史对话信息，共有2段对话:\n问题1: A?\n问题2: C?\n\n对它们的总结如下(每一个总结要先复述一下问题):\n问题1: A?\n总结:",
    pfx := "问题1: A?\n总结:" }

/-- The prompt dict produced for `[msgA, msgB]` when the inherited template
renderer returns the empty string. -/
def pdAB : PromptDict :=
  { prompt := "好的，根据提供历史对话信息，共有1段对话:\n问题1: A?\n\n对它们的总结如下(每一个总结要先复述一下问题):\n问题1: A?\n总结:",
    pfx := "问题1: A?\n总结:" }

/-! Claim theorems. -/

/-- C1: on an even-length history strictly alternating human then
assistant, the pairing loop of `_create_prompt` succeeds and yields the
paired history of length `len/2` whose i-th pair is the contents of
messages 2i and 2i+1 in original order, and the questions list of the
even-indexed contents in order. -/
theorem mkt_pairing_valid_history (h : List Message) (i : Nat)
    (heven : h.length % 2 = 0)
    (hhum : ∀ j (hj : j < h.length), j % 2 = 0 → h[j].type = MessageType.human)
    (hai : ∀ j (hj : j < h.length), j % 2 = 1 → h[j].type = MessageType.ai)
    (h1 : 2 * i < h.length) (h2 : 2 * i + 1 < h.length) :
    pairLoop h = Except.ok (specPairedHistory h, specQuestions h) ∧
    (specPairedHistory h).length = h.length / 2 ∧
    (specQuestions h).length = h.length / 2 ∧
    (specPairedHistory h)[i]? = some (h[2 * i].content, h[2 * i + 1].content) ∧
    (specQuestions h)[i]? = some h[2 * i].content := by
  have hok := pairLoop_ok_of_valid h heven hhum hai
  have hlen := pairLoop_ok_lengths h _ _ hok
  exact ⟨hok, by omega, by omega, specPairedHistory_getElem h i h1 h2,
    specQuestions_getElem h i h1⟩

/-- Witness for C1: the spec's scenario, checked at pair index 1. -/
theorem mkt_pairing_valid_history_witness :
    pairLoop hist4 = Except.ok ([("A?", "B."), ("C?", "D.")], ["A?", "C?"]) ∧
    ([("A?", "B."), ("C?", "D.")] : List (String × String)).length = hist4.length / 2 ∧
    (["A?", "C?"] : List String).length = hist4.length / 2 ∧
    ([("A?", "B."), ("C?", "D.")] : List (String × String))[1]? = some ("C?", "D.") ∧
    (["A?", "C?"] : List String)[1]? = some ("C?") :=
  mkt_pairing_valid_history hist4 1 (by decide) (by decide) (by decide)
    (by decide) (by decide)

/-- C3: whenever `_create_prompt` produces a prompt dict for a history, its
priming string equals "问题1: " followed by the first message's content
followed by a newline and "总结:". -/
theorem mkt_pfx_eq_first_question
    (bp : String → List (String × String) → String → String) (tmpl : String)
    (m : Message) (rest : List Message) (pd : PromptDict)
    (hok : mkt_create_prompt bp tmpl (m :: rest) = Except.ok pd) :
    pd.pfx = "问题1: " ++ m.content ++ "\n总结:" := by
  obtain ⟨hist, q0, qs, heven, hpl, hpfx, hprompt⟩ :=
    mkt_create_prompt_ok bp tmpl _ pd hok
  obtain ⟨b, l', hist', qs', hl, hhist, hqs, hpl'⟩ :=
    pairLoop_ok_cons m rest hist (q0 :: qs) hpl
  have hq0 : q0 = m.content := by
    injection hqs
  rw [hpfx, hq0]

/-- Witness for C3: the scenario's first pair gives priming string
"问题1: A?\n总结:". -/
theorem mkt_pfx_eq_first_question_witness :
    pdAB.pfx = "问题1: " ++ msgA.content ++ "\n总结:" :=
  mkt_pfx_eq_first_question (fun _ _ _ => "") "" msgA [msgB] pdAB rfl

/-- C4: the non-streaming pipeline returns exactly the priming string
concatenated with the raw model output, and invokes the model once, on the
rendered prompt. -/
theorem mkt_nonstream_concat
    (bp : String → List (String × String) → String → String) (tmpl : String)
    (llm : String → String) (h : List Message) (pd : PromptDict)
    (hok : mkt_create_prompt bp tmpl h = Except.ok pd) :
    run_nonstream bp tmpl llm h = (Except.ok (pd.pfx ++ llm pd.prompt), [pd.prompt]) := by
  simp [run_nonstream, hok]

/-- Witness for C4: model output "OUT" is returned as the priming string
followed by "OUT", byte for byte. -/
theorem mkt_nonstream_concat_witness :
    run_nonstream (fun _ _ _ => "") "" (fun _ => "OUT") [msgA, msgB] =
      (Except.ok ("问题1: A?\n总结:OUT"), [pdAB.prompt]) :=
  mkt_nonstream_concat (fun _ _ _ => "") "" (fun _ => "OUT") [msgA, msgB] pdAB rfl

/-- C5: the streaming pipeline yields the priming string as its first chunk
and then exactly the model's chunks in their original order, unmodified,
and invokes the model once, on the rendered prompt. -/
theorem mkt_stream_chunks
    (bp : String → List (String × String) → String → String) (tmpl : String)
    (llmStream : String → List String) (h : List Message) (pd : PromptDict)
    (hok : mkt_create_prompt bp tmpl h = Except.ok pd) :
    run_stream bp tmpl llmStream h =
      (Except.ok (pd.pfx :: llmStream pd.prompt), [pd.prompt]) := by
  simp [run_stream, stream_postprocess_fn, hok]

/-- Witness for C5: model chunks ["foo", "bar"] are emitted as
[priming string, "foo", "bar"]. -/
theorem mkt_stream_chunks_witness :
    run_stream (fun _ _ _ => "") "" (fun _ => ["foo", "bar"]) [msgA, msgB] =
      (Except.ok (["问题1: A?\n总结:", "foo", "bar"]), [pdAB.prompt]) :=
  mkt_stream_chunks (fun _ _ _ => "") "" (fun _ => ["foo", "bar"]) [msgA, msgB] pdAB rfl

/-- C9: the empty history passes the validator's checks (even length,
no indexed message to violate alternation, so the pairing loop succeeds),
yet prompt construction still fails — with the index error from
`questions[0]` — and no prompt dict is produced. -/
theorem mkt_empty_history_index_error
    (bp : String → List (String × String) → String → String) (tmpl : String) :
    ([] : List Message).length % 2 = 0 ∧
    pairLoop ([] : List Message) = Except.ok ([], []) ∧
    mkt_create_prompt bp tmpl [] = Except.error ChainError.indexError :=
  ⟨rfl, rfl, rfl⟩

/-- C2: on a history of odd length, or with an even-indexed non-human
message, or with an odd-indexed non-assistant message, prompt construction
fails with the validation error, no prompt dict is produced, and neither
pipeline reaches the model-invocation step (the prompt log stays empty:
zero model calls). -/
theorem mkt_invalid_history_validation_error
    (bp : String → List (String × String) → String → String) (tmpl : String)
    (llm : String → String) (llmStream : String → List String)
    (h : List Message)
    (hbad : ¬ h.length % 2 = 0 ∨
      (∃ j, ∃ hj : j < h.length, j % 2 = 0 ∧ h[j].type ≠ MessageType.human) ∨
      (∃ j, ∃ hj : j < h.length, j % 2 = 1 ∧ h[j].type ≠ MessageType.ai)) :
    mkt_create_prompt bp tmpl h = Except.error ChainError.validationError ∧
    run_nonstream bp tmpl llm h = (Except.error ChainError.validationError, []) ∧
    run_stream bp tmpl llmStream h = (Except.error ChainError.validationError, []) := by
  have hcp : mkt_create_prompt bp tmpl h = Except.error ChainError.validationError := by
    by_cases heven : h.length % 2 = 0
    · have hviol :
          (∃ j, ∃ hj : j < h.length, j % 2 = 0 ∧ h[j].type ≠ MessageType.human) ∨
          (∃ j, ∃ hj : j < h.length, j % 2 = 1 ∧ h[j].type ≠ MessageType.ai) := by
        rcases hbad with hodd | hv
        · exact absurd heven hodd
        · exact hv
      have hv := pairLoop_error_of_violation h hviol
      simp only [mkt_create_prompt, if_pos heven, hv]
    · simp only [mkt_create_prompt, if_neg heven]
  exact ⟨hcp, by simp [run_nonstream, hcp], by simp [run_stream, hcp]⟩

/-- Witness for C2: a history of odd length 1 aborts with the validation
error and records zero model invocations on both pipelines. -/
theorem mkt_invalid_history_validation_error_witness :
    mkt_create_prompt (fun _ _ _ => "") "" [msgA] =
      Except.error ChainError.validationError ∧
    run_nonstream (fun _ _ _ => "") "" (fun _ => "") [msgA] =
      (Except.error ChainError.validationError, []) ∧
    run_stream (fun _ _ _ => "") "" (fun _ => []) [msgA] =
      (Except.error ChainError.validationError, []) :=
  mkt_invalid_history_validation_error (fun _ _ _ => "") "" (fun _ => "")
    (fun _ => []) [msgA] (Or.inl (by decide))

/-- C6: whenever `_create_prompt` succeeds, the final prompt is exactly the
inherited-template rendering of (system instruction, paired history, query
instruction), then the synthetic assistant-voice preamble stating the
number of turns `len(history)/2` and restating each question as the
numbered list `questionsStrAux 0`, then the priming string. -/
theorem mkt_prompt_concatenation
    (bp : String → List (String × String) → String → String) (tmpl : String)
    (h : List Message) (pd : PromptDict)
    (hist : List (String × String)) (q0 : String) (qs : List String)
    (hok : mkt_create_prompt bp tmpl h = Except.ok pd)
    (hpl : pairLoop h = Except.ok (hist, q0 :: qs)) :
    hist.length = h.length / 2 ∧
    pd.prompt = bp tmpl hist mkt_query_input
      ++ prompt_assist_str (h.length / 2) (questionsStrAux 0 (q0 :: qs))
      ++ pd.pfx := by
  obtain ⟨hist', q0', qs', heven, hpl', hpfx, hprompt⟩ :=
    mkt_create_prompt_ok bp tmpl h pd hok
  rw [hpl] at hpl'
  injection hpl' with he
  rw [Prod.mk.injEq] at he
  obtain ⟨hh, hq⟩ := he
  rw [List.cons.injEq] at hq
  obtain ⟨hq0, hqs⟩ := hq
  subst hh hq0 hqs
  have hlen := pairLoop_ok_lengths h hist (q0 :: qs) hpl
  have hlen2 : hist.length = h.length / 2 := by omega
  rw [hlen2] at hprompt
  exact ⟨hlen2, hprompt⟩

/-- Witness for C6: the scenario history, with an inherited template
renderer returning "". -/
theorem mkt_prompt_concatenation_witness :
    ([("A?", "B."), ("C?", "D.")] : List (String × String)).length = hist4.length / 2 ∧
    pd4.prompt = ("" : String)
      ++ prompt_assist_str (hist4.length / 2) (questionsStrAux 0 ["A?", "C?"])
      ++ pd4.pfx :=
  mkt_prompt_concatenation (fun _ _ _ => "") "" hist4 pd4
    [("A?", "B."), ("C?", "D.")] "A?" ["C?"] rfl rfl

/-- C7: prompt construction never changes the conversation history: the
request context produced by either strategy's chain carries `chat_history`
through unchanged (the instruction-tuned pipeline's assign steps, and the
hosted-family query-assign step). -/
theorem mkt_no_history_mutation
    (bp : String → List (String × String) → String → String) (tmpl : String)
    (llm : String → String) (h : List Message) (q : String) (ctx : MKTCtx)
    (hok : run_pipeline_ctx bp tmpl llm h = Except.ok ctx) :
    ctx.chat_history = h ∧
    (claude_assign_query { chat_history := h, query := q }).chat_history = h := by
  constructor
  · cases hcp : mkt_create_prompt bp tmpl h with
    | error e =>
        simp only [run_pipeline_ctx, hcp] at hok
        exact absurd hok (by simp)
    | ok pd =>
        simp only [run_pipeline_ctx, hcp] at hok
        injection hok with hok'
        rw [← hok']
  · rfl

/-- Witness for C7: the scenario history flows through the pipeline
unchanged. -/
theorem mkt_no_history_mutation_witness :
    ({ chat_history := hist4, prompt := pd4.prompt, pfx := pd4.pfx,
       llm_output := "OUT" } : MKTCtx).chat_history = hist4 ∧
    (claude_assign_query { chat_history := hist4, query := "q" }).chat_history = hist4 :=
  mkt_no_history_mutation (fun _ _ _ => "") "" (fun _ => "OUT") hist4 "q"
    { chat_history := hist4, prompt := pd4.prompt, pfx := pd4.pfx, llm_output := "OUT" }
    rfl

/-- C8: the three hosted-family variants differ only in `model_id`; with no
explicit override each passes the shared defaults
max_tokens_to_sample = 2000, temperature = 0.1, top_p = 0.9 and the same
query instruction, and overriding only temperature (to 0.1) still passes
max_tokens_to_sample at the family default 2000. -/
theorem claude_variants_share_defaults :
    Claude2MKTConversationSummaryChain.model_id = "anthropic.claude-v2" ∧
    Claude21MKTConversationSummaryChain.model_id = "anthropic.claude-v2:1" ∧
    ClaudeInstanceMKTConversationSummaryChain.model_id = "anthropic.claude-instant-v1" ∧
    Claude21MKTConversationSummaryChain.default_model_kwargs =
      Claude2MKTConversationSummaryChain.default_model_kwargs ∧
    ClaudeInstanceMKTConversationSummaryChain.default_model_kwargs =
      Claude2MKTConversationSummaryChain.default_model_kwargs ∧
    Claude21MKTConversationSummaryChain.query_input =
      Claude2MKTConversationSummaryChain.query_input ∧
    ClaudeInstanceMKTConversationSummaryChain.query_input =
      Claude2MKTConversationSummaryChain.query_input ∧
    effective_model_kwargs Claude2MKTConversationSummaryChain noOverride =
      { max_tokens_to_sample := 2000, temperature := 0.1, top_p := 0.9 } ∧
    effective_model_kwargs Claude21MKTConversationSummaryChain noOverride =
      { max_tokens_to_sample := 2000, temperature := 0.1, top_p := 0.9 } ∧
    effective_model_kwargs ClaudeInstanceMKTConversationSummaryChain noOverride =
      { max_tokens_to_sample := 2000, temperature := 0.1, top_p := 0.9 } ∧
    (effective_model_kwargs Claude21MKTConversationSummaryChain
      { max_tokens_to_sample := none, temperature := some 0.1, top_p := none
        }).max_tokens_to_sample = 2000 :=
  ⟨rfl, rfl, rfl, rfl, rfl, rfl, rfl, rfl, rfl, rfl, rfl⟩

/-- C10: the hosted-family summary chain unconditionally replaces any
caller-supplied `query` with the fixed family instruction before the
inherited chain runs: the inner chain always sees `claude_query_input`,
whatever query the request carried. -/
theorem claude_query_overridden {α : Type} (inner : ClaudeCtx → α)
    (h : List Message) (q : String) :
    (claude_assign_query { chat_history := h, query := q }).query =
      claude_query_input ∧
    claude_create_chain inner { chat_history := h, query := q } =
      inner { chat_history := h, query := claude_query_input } :=
  ⟨rfl, rfl⟩
